import Mathlib

/-!
Verification of the API request/response handling layer of the
OllamaApiT00l client (`src/main.py`), as a shallow embedding in Lean.

The embedding models:

* Python values produced by `json.loads` / returned from the helper
  `call_ollama_api` (`PyVal`),
* the request each call site constructs (`HttpRequest`), including the
  TLS-verification flag passed to the `requests` library,
* the outcome classification performed by `call_ollama_api`
  (`call_ollama_api_result`),
* the NDJSON streaming read loop of `generate_text`
  (`generate_stream_loop`) together with the Python semantics of the
  operations it performs on decoded events (`in`, subscript, `.get`,
  `+=`, truthiness),
* the lifecycle wrappers `delete_model`, `pull_model`, `push_model`,
  `copy_model` and the input validation they and `generate_text`
  perform before any network activity.

Network transmission itself and the JSON parser are external to the
repository (the `requests` / `json` libraries); they are represented by
oracles: a `TransportOutcome` stands for what the transport delivered,
and a decoded NDJSON line is a `Line` carrying the decode result.
-/

/-- A Python value as produced by `json.loads` (JSON `null` decodes to
Python `None`, so a single `none` constructor covers both) and as
returned by `call_ollama_api` (which can also return Python `True` and
`None` directly). -/
inductive PyVal where
  | none : PyVal
  | bool (b : Bool) : PyVal
  | int (n : Int) : PyVal
  | str (s : String) : PyVal
  | list (xs : List PyVal) : PyVal
  | dict (fields : List (String × PyVal)) : PyVal
deriving Repr

/-- Python dictionary lookup on the association list of a decoded JSON
object (`json.loads` yields unique keys, so first match is the match). -/
def dictLookup : List (String × PyVal) → String → Option PyVal
  | [], _ => Option.none
  | (k, v) :: rest, key => if k = key then Option.some v else dictLookup rest key

/-- Python truthiness of a `PyVal`, as used by `if event.get("done", False):`. -/
def pyTruthy : PyVal → Bool
  | .none => false
  | .bool b => b
  | .int n => if n = 0 then false else true
  | .str s => if s = "" then false else true
  | .list xs => !xs.isEmpty
  | .dict fs => !fs.isEmpty

/-- Python `v == key` for a string `key`: among the value shapes that
`json.loads` can produce, only an equal string compares equal. -/
def pyEqStr (v : PyVal) (key : String) : Bool :=
  match v with
  | .str t => t = key
  | _ => false

/-- Python `v is True`: identity with the `True` singleton, so exactly
the boolean `True` (note the JSON literal `true` decodes to it). Used by
`pull_model` / `push_model` / `copy_model` success checks. -/
def pyIsTrue (v : PyVal) : Bool :=
  match v with
  | .bool b => b
  | _ => false

/-- Python `s.strip()` with no argument: remove whitespace from both
ends of the string. -/
def pyStrip (s : String) : String :=
  String.mk (((s.data.dropWhile Char.isWhitespace).reverse.dropWhile
    Char.isWhitespace).reverse)

/-- Errors a `PyVal` operation can raise; the stream loop of
`generate_text` catches only `json.JSONDecodeError`, so these propagate
out of the loop. -/
inductive PyError where
  | typeError : PyError
  | keyError : PyError
  | attributeError : PyError
deriving Repr, DecidableEq

/-- `pat` occurs as a contiguous substring of the character list. -/
def charsContain (pat : List Char) : List Char → Bool
  | [] => pat.isEmpty
  | c :: rest => pat.isPrefixOf (c :: rest) || charsContain pat rest

/-- Python `key in e`: key membership for a dict, element equality for a
list, substring test for a string, `TypeError` for the other shapes
`json.loads` can return. -/
def pyContains (e : PyVal) (key : String) : Except PyError Bool :=
  match e with
  | .dict fs => .ok (dictLookup fs key).isSome
  | .list xs => .ok (xs.any (fun v => pyEqStr v key))
  | .str s => .ok (charsContain key.data s.data)
  | _ => .error .typeError

/-- Python `e[key]` for a string key: only a dict supports it
(`KeyError` when absent); every other shape raises `TypeError`. -/
def pyGetItem (e : PyVal) (key : String) : Except PyError PyVal :=
  match e with
  | .dict fs =>
    match dictLookup fs key with
    | Option.some v => .ok v
    | Option.none => .error .keyError
  | _ => .error .typeError

/-- Python `e.get(key, False)`: only a dict has `.get`; other shapes
raise `AttributeError`. -/
def pyGetDefault (e : PyVal) (key : String) : Except PyError PyVal :=
  match e with
  | .dict fs => .ok ((dictLookup fs key).getD (.bool false))
  | _ => .error .attributeError

/-- One HTTP request as handed to the `requests` library: method, full
URL, optional JSON body, the TLS-verification flag, and whether a
streamed response is requested. -/
structure HttpRequest where
  method : String
  url : String
  body : Option PyVal
  verify : Bool
  stream : Bool := false
deriving Repr

/-- The `requests` library's default for the `verify` parameter when a
call site omits it: certificate verification is enabled. -/
def requestsDefaultVerify : Bool := true

/-- The request constructed by `call_ollama_api(url, endpoint, method,
json_data)` (src/main.py lines 31–39): `POST` and `DELETE` send the
JSON body with `verify=False`; every other method value falls to the
`else` branch, a plain `GET` with `verify=False` and no body. -/
def call_ollama_api_request (url endpoint method : String)
    (json_data : Option PyVal) : HttpRequest :=
  let api_endpoint := url ++ "/api/" ++ endpoint
  if method = "POST" then
    { method := "POST", url := api_endpoint, body := json_data, verify := false }
  else if method = "DELETE" then
    { method := "DELETE", url := api_endpoint, body := json_data, verify := false }
  else
    { method := "GET", url := api_endpoint, body := Option.none, verify := false }

/-- The request issued by `check_blob` (src/main.py line 206): a `HEAD`
on `{url}/api/blobs/{digest}` with `verify=False`. -/
def check_blob_request (url digest : String) : HttpRequest :=
  { method := "HEAD", url := url ++ "/api/blobs/" ++ digest,
    body := Option.none, verify := false }

/-- The streaming request issued by `generate_text` (src/main.py line
132): a `POST` to `{url}/api/generate` with `stream=True` and no
`verify` argument, so the `requests` default applies. -/
def generate_text_request (url model prompt : String) : HttpRequest :=
  { method := "POST", url := url ++ "/api/generate",
    body := Option.some (.dict [("model", .str model), ("prompt", .str prompt)]),
    verify := requestsDefaultVerify, stream := true }

/-- What the transport delivered for one synchronous call: either a
response (status, raw body text, and the result of `response.json()` —
`none` when the body is not valid JSON and `.json()` raises
`ValueError`) or a `requests.exceptions.RequestException`. -/
structure HttpResponse where
  status : Nat
  bodyText : String
  bodyJson : Option PyVal
deriving Repr

/-- Transport-level outcome of issuing a request. -/
inductive TransportOutcome where
  | response (r : HttpResponse) : TransportOutcome
  | transportError (msg : String) : TransportOutcome
deriving Repr

/-- A diagnostic emitted by `call_ollama_api` via `print_error`: the
non-2xx branch prints the status code, the `RequestException` handler
prints the exception text. -/
inductive ApiErr where
  | httpStatus (code : Nat) : ApiErr
  | transport (msg : String) : ApiErr
deriving Repr, DecidableEq

/-- Outcome classification of `call_ollama_api` (src/main.py lines
41–53): the Python return value paired with the diagnostics printed.
Status 204 returns `True` before the body is ever inspected; status 200
returns the parsed JSON, or the raw body text when parsing raises
`ValueError`; any other status prints the status diagnostic and returns
`None`; a `RequestException` prints the network diagnostic and returns
`None`. -/
def call_ollama_api_result : TransportOutcome → PyVal × List ApiErr
  | .transportError m => (.none, [.transport m])
  | .response r =>
    if r.status = 200 ∨ r.status = 204 then
      if r.status = 204 then (.bool true, [])
      else
        match r.bodyJson with
        | Option.some v => (v, [])
        | Option.none => (.str r.bodyText, [])
    else (.none, [.httpStatus r.status])

/-- One line delivered by `response.iter_lines(decode_unicode=True)` in
`generate_text`, tagged with its `json.loads` outcome: an empty line
(falsy, skipped by `if line:` before any decode), a non-empty line that
raises `json.JSONDecodeError`, or a line that decodes to an event. -/
inductive Line where
  | emptyLine : Line
  | badLine (raw : String) : Line
  | event (e : PyVal) : Line
deriving Repr

/-- The mutable state of the `generate_text` read loop: the
`generated_text` buffer and the `complete_data` event log. -/
structure StreamAcc where
  text : String
  log : List PyVal
deriving Repr

/-- Processing of one successfully decoded event in the loop body
(src/main.py lines 139–144), in source order: append the event to
`complete_data`; if `"response" in event`, run
`generated_text += event["response"]` (a `TypeError` unless the value
is a string); then evaluate `event.get("done", False)` and report its
truthiness as the break decision. Any raised error escapes the loop
(only `json.JSONDecodeError` is caught there). -/
def generate_event_step (acc : StreamAcc) (e : PyVal) :
    Except PyError (StreamAcc × Bool) :=
  let log' := acc.log ++ [e]
  match pyContains e "response" with
  | .error err => .error err
  | .ok hasResp =>
    let textRes : Except PyError String :=
      if hasResp then
        match pyGetItem e "response" with
        | .error err => .error err
        | .ok (.str s) => .ok (acc.text ++ s)
        | .ok _ => .error .typeError
      else .ok acc.text
    match textRes with
    | .error err => .error err
    | .ok text' =>
      match pyGetDefault e "done" with
      | .error err => .error err
      | .ok d => .ok (⟨text', log'⟩, pyTruthy d)

/-- The warning printed for a line that fails JSON decoding. -/
def decodeWarning (raw : String) : String := "无法解析事件: " ++ raw

/-- The `for line in response.iter_lines(...)` loop of `generate_text`
(src/main.py lines 136–146): empty lines are skipped, undecodable lines
print a warning and the loop continues, decoded events are processed by
`generate_event_step`; the loop breaks when that step reports a truthy
`done`. Returns the warnings printed together with either the raised
error or the final state and whether termination was by `done` (`true`)
or by end-of-stream (`false`). -/
def generate_stream_loop (acc : StreamAcc) :
    List Line → List String × Except PyError (StreamAcc × Bool)
  | [] => ([], .ok (acc, false))
  | .emptyLine :: rest => generate_stream_loop acc rest
  | .badLine raw :: rest =>
    let (w, r) := generate_stream_loop acc rest
    (decodeWarning raw :: w, r)
  | .event e :: rest =>
    match generate_event_step acc e with
    | .error err => ([], .error err)
    | .ok (acc', true) => ([], .ok (acc', true))
    | .ok (acc', false) => generate_stream_loop acc' rest

/-- The `response` fragment an event contributes to the text buffer:
the value of its `"response"` key when the event is a dict and the
value is a string (every other event shape either contributes nothing
or makes the loop raise). -/
def respFrag : PyVal → Option String
  | .dict fs =>
    match dictLookup fs "response" with
    | Option.some (.str s) => Option.some s
    | _ => Option.none
  | _ => Option.none

/-- Ordered concatenation of the `response` fragments of a list of
events. -/
def responsesConcat : List PyVal → String
  | [] => ""
  | e :: rest => (respFrag e).getD "" ++ responsesConcat rest

/-- How `generate_text` reports after its request and read loop
(src/main.py lines 117–155): validation failure before any request,
non-200 status, transport error, an uncaught loop error, or — after a
completed loop, which always prints the event log first — the
empty-text diagnostic when `generated_text.strip()` is falsy, else the
generated text. -/
inductive GenResult where
  | validationError : GenResult
  | httpError (status : Nat) : GenResult
  | transportError (msg : String) : GenResult
  | crash (e : PyError) : GenResult
  | emptyText (log : List PyVal) : GenResult
  | success (text : String) (log : List PyVal) : GenResult
deriving Repr

/-- Classification of a finished read loop (src/main.py lines 148–152):
an escaped error crashes out of `generate_text`; otherwise the event
log is printed and the text buffer is reported as empty when its
stripped form is the empty string — independently of whether the loop
saw `done`. -/
def generate_text_result : Except PyError (StreamAcc × Bool) → GenResult
  | .error e => .crash e
  | .ok (acc, _) =>
    if pyStrip acc.text = "" then .emptyText acc.log else .success acc.text acc.log

/-- The streamed response to the generate request: either a transport
failure or a status code with the NDJSON lines of the body. -/
inductive StreamTransport where
  | err (msg : String) : StreamTransport
  | resp (status : Nat) (lines : List Line) : StreamTransport

/-- `generate_text` end to end (src/main.py lines 116–155): both
prompts are `.strip()`ed; if either is empty the function reports the
validation error and returns before any request; otherwise it issues
the streaming POST, fails on a non-200 status, runs the read loop and
classifies the outcome. Returns the result and the requests issued. -/
def generate_text_run (url model prompt : String) (t : StreamTransport) :
    GenResult × List HttpRequest :=
  let m := pyStrip model
  let p := pyStrip prompt
  if m = "" ∨ p = "" then (.validationError, [])
  else
    let req := generate_text_request url m p
    match t with
    | .err msg => (.transportError msg, [req])
    | .resp status lines =>
      if status = 200 then
        (generate_text_result (generate_stream_loop ⟨"", []⟩ lines).2, [req])
      else (.httpError status, [req])

/-- Outcome a lifecycle wrapper reports to the operator. -/
inductive OpResult where
  | validationError : OpResult
  | cancelled : OpResult
  | opSuccess : OpResult
  | opFailure : OpResult
deriving Repr, DecidableEq

/-- `delete_model` (src/main.py lines 157–172): the name is stripped
and must be non-empty, deletion must be confirmed, then the `DELETE`
to `/api/delete` is issued and success is reported iff the returned
result compares `== ""`. Returns the outcome and the requests issued. -/
def delete_model_run (url name : String) (confirm : Bool)
    (t : TransportOutcome) : OpResult × List HttpRequest :=
  let m := pyStrip name
  if m = "" then (.validationError, [])
  else if !confirm then (.cancelled, [])
  else
    let req := call_ollama_api_request url "delete" "DELETE"
      (Option.some (.dict [("model", .str m)]))
    let ret := (call_ollama_api_result t).1
    ((if pyEqStr ret "" then .opSuccess else .opFailure), [req])

/-- `pull_model` (src/main.py lines 174–185): the name is stripped and
must be non-empty, then the `POST` to `/api/pull` carrying the `stream`
flag is issued and success is reported iff `result is True`. -/
def pull_model_run (url name : String) (stream : Bool)
    (t : TransportOutcome) : OpResult × List HttpRequest :=
  let m := pyStrip name
  if m = "" then (.validationError, [])
  else
    let req := call_ollama_api_request url "pull" "POST"
      (Option.some (.dict [("model", .str m), ("stream", .bool stream)]))
    let ret := (call_ollama_api_result t).1
    ((if pyIsTrue ret then .opSuccess else .opFailure), [req])

/-- `push_model` (src/main.py lines 187–198): same shape as
`pull_model` against `/api/push`. -/
def push_model_run (url name : String) (stream : Bool)
    (t : TransportOutcome) : OpResult × List HttpRequest :=
  let m := pyStrip name
  if m = "" then (.validationError, [])
  else
    let req := call_ollama_api_request url "push" "POST"
      (Option.some (.dict [("model", .str m), ("stream", .bool stream)]))
    let ret := (call_ollama_api_result t).1
    ((if pyIsTrue ret then .opSuccess else .opFailure), [req])

/-- `copy_model` (src/main.py lines 214–225): both names are stripped
and must be non-empty, then the `POST` to `/api/copy` is issued and
success is reported iff `result is True`. -/
def copy_model_run (url source target : String)
    (t : TransportOutcome) : OpResult × List HttpRequest :=
  let s := pyStrip source
  let g := pyStrip target
  if s = "" ∨ g = "" then (.validationError, [])
  else
    let req := call_ollama_api_request url "copy" "POST"
      (Option.some (.dict [("from", .str s), ("to", .str g)]))
    let ret := (call_ollama_api_result t).1
    ((if pyIsTrue ret then .opSuccess else .opFailure), [req])

/-! ## Helper lemmas -/

/-- Processing one decoded event without an error appends exactly that
event to the log and exactly its `response` fragment to the text. -/
theorem generate_event_step_ok {acc : StreamAcc} {e : PyVal}
    {acc' : StreamAcc} {b : Bool}
    (h : generate_event_step acc e = .ok (acc', b)) :
    acc'.log = acc.log ++ [e] ∧ acc'.text = acc.text ++ (respFrag e).getD "" := by
  cases e with
  | dict fs =>
    cases hl : dictLookup fs "response" with
    | none =>
      simp only [generate_event_step, pyContains, hl, Option.isSome_none,
        if_neg, Bool.false_eq_true, ite_false, pyGetDefault] at h
      cases h' : (dictLookup fs "done") <;> simp [h'] at h <;>
        simp [respFrag, hl, ← h.1, ← h.2]
    | some v =>
      simp only [generate_event_step, pyContains, hl, Option.isSome_some,
        ite_true, pyGetItem, pyGetDefault] at h
      cases v
      case str s =>
        cases h' : (dictLookup fs "done") <;> simp [h'] at h <;>
          simp [respFrag, hl, ← h.1, ← h.2]
      all_goals simp at h
  | none => simp [generate_event_step, pyContains] at h
  | bool b' => simp [generate_event_step, pyContains] at h
  | int n => simp [generate_event_step, pyContains] at h
  | str s =>
    simp only [generate_event_step, pyContains] at h
    by_cases hc : charsContain "response".data s.data = true <;>
      simp [hc, pyGetItem, pyGetDefault] at h
  | list xs =>
    simp only [generate_event_step, pyContains] at h
    by_cases hc : xs.any (fun v => pyEqStr v "response") = true <;>
      simp [hc, pyGetItem, pyGetDefault] at h

/-- A completed run of the read loop extends the log by some list of
newly processed events and the text by exactly their concatenated
`response` fragments. -/
theorem generate_stream_loop_ok_spec (lines : List Line) :
    ∀ (acc : StreamAcc) (w : List String) (acc' : StreamAcc) (d : Bool),
      generate_stream_loop acc lines = (w, .ok (acc', d)) →
      ∃ news, acc'.log = acc.log ++ news ∧
        acc'.text = acc.text ++ responsesConcat news := by
  induction lines with
  | nil =>
    intro acc w acc' d h
    simp only [generate_stream_loop, Prod.mk.injEq, Except.ok.injEq] at h
    obtain ⟨-, ⟨rfl, -⟩, -⟩ := h
    exact ⟨[], by simp [responsesConcat]⟩
  | cons l rest ih =>
    intro acc w acc' d h
    cases l with
    | emptyLine =>
      simp only [generate_stream_loop] at h
      exact ih acc w acc' d h
    | badLine raw =>
      simp only [generate_stream_loop] at h
      rcases hx : generate_stream_loop acc rest with ⟨w₁, r₁⟩
      rw [hx] at h
      simp only [Prod.mk.injEq] at h
      exact ih acc w₁ acc' d (by rw [hx, h.2])
    | event e =>
      simp only [generate_stream_loop] at h
      cases hs : generate_event_step acc e with
      | error err => rw [hs] at h; simp at h
      | ok p =>
        obtain ⟨acc₁, b⟩ := p
        rw [hs] at h
        obtain ⟨hl, ht⟩ := generate_event_step_ok hs
        cases b with
        | true =>
          simp only [Prod.mk.injEq, Except.ok.injEq] at h
          obtain ⟨-, ⟨rfl, -⟩, -⟩ := h
          exact ⟨[e], by simp [responsesConcat, hl, ht]⟩
        | false =>
          simp only at h
          obtain ⟨news, hlog, htext⟩ := ih acc₁ w acc' d h
          refine ⟨e :: news, ?_, ?_⟩
          · rw [hlog, hl, List.append_assoc]
            rfl
          · rw [htext, ht, String.append_assoc]
            simp [responsesConcat]

/-! ## Claim theorems -/

/-- C1: for every NDJSON line sequence on which the read loop completes,
the final `generated_text` buffer is the ordered concatenation of the
`response` fragments of the events in the `complete_data` log (no
fragment skipped, reordered, or duplicated); and on the concrete input
`{"response":"Hel"}`, `{"response":"lo"}`, `{"done":true}` the loop
yields text `"Hello"`, the three-event log, and `done`-termination. -/
theorem generate_text_concat_invariant :
    (∀ (lines : List Line) (w : List String) (acc : StreamAcc) (d : Bool),
      generate_stream_loop ⟨"", []⟩ lines = (w, .ok (acc, d)) →
      acc.text = responsesConcat acc.log) ∧
    generate_stream_loop ⟨"", []⟩
        [.event (.dict [("response", .str "Hel")]),
         .event (.dict [("response", .str "lo")]),
         .event (.dict [("done", .bool true)])] =
      ([], .ok (⟨"Hello",
        [.dict [("response", .str "Hel")],
         .dict [("response", .str "lo")],
         .dict [("done", .bool true)]]⟩, true)) ∧
    [PyVal.dict [("response", .str "Hel")],
     .dict [("response", .str "lo")],
     .dict [("done", .bool true)]].length = 3 := by
  refine ⟨?_, rfl, rfl⟩
  intro lines w acc d h
  obtain ⟨news, hlog, htext⟩ := generate_stream_loop_ok_spec lines ⟨"", []⟩ w acc d h
  simp only at hlog htext
  rw [htext, hlog]
  simp

/-- Witness for C1: the invariant instantiated on the concrete
three-event stream. -/
theorem generate_text_concat_invariant_witness :
    (StreamAcc.mk "Hello"
      [.dict [("response", .str "Hel")],
       .dict [("response", .str "lo")],
       .dict [("done", .bool true)]]).text =
    responsesConcat
      [.dict [("response", .str "Hel")],
       .dict [("response", .str "lo")],
       .dict [("done", .bool true)]] :=
  generate_text_concat_invariant.1
    [.event (.dict [("response", .str "Hel")]),
     .event (.dict [("response", .str "lo")]),
     .event (.dict [("done", .bool true)])]
    [] _ true rfl

/-- C2: a line that fails JSON decoding never aborts the read loop —
for every position of a malformed line, the loop's final state (text,
log, raised error, done flag) is exactly that of the same stream
without the malformed line, which in particular is never appended to
the event log; and on the concrete stream `{"response":"Hel"}`,
`"not json"`, `{"response":"lo"}` the loop records one decode warning
and still yields text `"Hello"` with the two valid events logged. -/
theorem bad_line_never_aborts_stream :
    (∀ (acc : StreamAcc) (pre post : List Line) (raw : String),
      (generate_stream_loop acc (pre ++ Line.badLine raw :: post)).2 =
        (generate_stream_loop acc (pre ++ post)).2) ∧
    generate_stream_loop ⟨"", []⟩
        [.event (.dict [("response", .str "Hel")]),
         .badLine "not json",
         .event (.dict [("response", .str "lo")])] =
      ([decodeWarning "not json"],
       .ok (⟨"Hello",
         [.dict [("response", .str "Hel")],
          .dict [("response", .str "lo")]]⟩, false)) := by
  refine ⟨?_, rfl⟩
  intro acc pre post raw
  induction pre generalizing acc with
  | nil =>
    simp only [List.nil_append, generate_stream_loop]
  | cons l pre' ih =>
    cases l with
    | emptyLine => simpa only [List.cons_append, generate_stream_loop] using ih acc
    | badLine raw' =>
      simp only [List.cons_append, generate_stream_loop]
      rcases h₁ : generate_stream_loop acc (pre' ++ Line.badLine raw :: post)
        with ⟨w₁, r₁⟩
      rcases h₂ : generate_stream_loop acc (pre' ++ post) with ⟨w₂, r₂⟩
      have := ih acc
      rw [h₁, h₂] at this
      simpa using this
    | event e =>
      simp only [List.cons_append, generate_stream_loop]
      cases hs : generate_event_step acc e with
      | error err => simp
      | ok p =>
        obtain ⟨acc₁, b⟩ := p
        cases b with
        | true => simp
        | false => simpa using ih acc₁

/-- Equation lemma: the loop on a line that fails decoding records the
warning and otherwise behaves as on the remaining lines. -/
theorem generate_stream_loop_badLine (acc : StreamAcc) (raw : String)
    (l : List Line) :
    generate_stream_loop acc (.badLine raw :: l) =
      (decodeWarning raw :: (generate_stream_loop acc l).1,
       (generate_stream_loop acc l).2) := by
  rcases hx : generate_stream_loop acc l with ⟨w, r⟩
  simp [generate_stream_loop, hx]

/-- Equation lemma: a decoded event whose step reports `done` breaks
the loop immediately. -/
theorem generate_stream_loop_event_break (acc : StreamAcc) (e : PyVal)
    (l : List Line) (acc₁ : StreamAcc)
    (hs : generate_event_step acc e = .ok (acc₁, true)) :
    generate_stream_loop acc (.event e :: l) = ([], .ok (acc₁, true)) := by
  simp [generate_stream_loop, hs]

/-- Equation lemma: a decoded event whose step does not report `done`
continues the loop from the updated state. -/
theorem generate_stream_loop_event_go (acc : StreamAcc) (e : PyVal)
    (l : List Line) (acc₁ : StreamAcc)
    (hs : generate_event_step acc e = .ok (acc₁, false)) :
    generate_stream_loop acc (.event e :: l) = generate_stream_loop acc₁ l := by
  simp [generate_stream_loop, hs]

/-- Equation lemma: a decoded event whose step raises escapes the loop
with that error. -/
theorem generate_stream_loop_event_error (acc : StreamAcc) (e : PyVal)
    (l : List Line) (err : PyError)
    (hs : generate_event_step acc e = .error err) :
    generate_stream_loop acc (.event e :: l) = ([], .error err) := by
  simp [generate_stream_loop, hs]

/-- C5: once a run of the read loop ends with the `done` break flag,
appending any further lines to the stream changes nothing — no later
line is processed; terminating at end-of-stream (the empty remaining
stream) yields a normal `.ok` result with the flag `false`; and the
post-loop reporting of `generate_text` treats a `done`-terminated and
an end-of-stream-terminated run identically — in particular an
end-of-stream run without `done` is never reported as a crash. -/
theorem done_event_terminates_loop :
    (∀ (acc : StreamAcc) (lines rest : List Line) (w : List String)
      (acc' : StreamAcc),
      generate_stream_loop acc lines = (w, .ok (acc', true)) →
      generate_stream_loop acc (lines ++ rest) = generate_stream_loop acc lines) ∧
    (∀ acc : StreamAcc, generate_stream_loop acc [] = ([], .ok (acc, false))) ∧
    (∀ (acc : StreamAcc) (d : Bool),
      generate_text_result (.ok (acc, d)) = generate_text_result (.ok (acc, true)) ∧
      ∀ e : PyError, generate_text_result (.ok (acc, d)) ≠ .crash e) := by
  refine ⟨?_, fun acc => rfl, ?_⟩
  · intro acc lines rest w acc' h
    induction lines generalizing acc w with
    | nil =>
      simp only [generate_stream_loop, Prod.mk.injEq, Except.ok.injEq] at h
      exact absurd h.2.2 (by simp)
    | cons l lines' ih =>
      cases l with
      | emptyLine =>
        simp only [generate_stream_loop, List.cons_append] at h ⊢
        exact ih acc w h
      | badLine raw =>
        rw [generate_stream_loop_badLine] at h
        rcases h₁ : generate_stream_loop acc lines' with ⟨w₁, r₁⟩
        rw [h₁] at h
        simp only [Prod.mk.injEq] at h
        have h₂ : generate_stream_loop acc lines' = (w₁, .ok (acc', true)) := by
          rw [h₁, h.2]
        have h₃ := ih acc w₁ h₂
        rw [List.cons_append, generate_stream_loop_badLine,
          generate_stream_loop_badLine, h₃]
      | event e =>
        cases hs : generate_event_step acc e with
        | error err =>
          rw [generate_stream_loop_event_error acc e lines' err hs] at h
          simp at h
        | ok p =>
          obtain ⟨acc₁, b⟩ := p
          cases b with
          | true =>
            rw [List.cons_append,
              generate_stream_loop_event_break acc e _ acc₁ hs,
              generate_stream_loop_event_break acc e _ acc₁ hs]
          | false =>
            rw [generate_stream_loop_event_go acc e _ acc₁ hs] at h
            rw [List.cons_append,
              generate_stream_loop_event_go acc e _ acc₁ hs,
              generate_stream_loop_event_go acc e _ acc₁ hs]
            exact ih acc₁ w h
  · intro acc d
    refine ⟨rfl, fun e => ?_⟩
    simp only [generate_text_result]
    split <;> simp

/-- Witness for C5: appending a further event after the concrete
`done` event leaves the loop result unchanged. -/
theorem done_event_terminates_loop_witness :
    generate_stream_loop ⟨"", []⟩
        ([.event (.dict [("done", .bool true)])] ++
          [.event (.dict [("response", .str "ignored")])]) =
      generate_stream_loop ⟨"", []⟩ [.event (.dict [("done", .bool true)])] :=
  done_event_terminates_loop.1 ⟨"", []⟩
    [.event (.dict [("done", .bool true)])]
    [.event (.dict [("response", .str "ignored")])]
    [] ⟨"", [.dict [("done", .bool true)]]⟩ rfl

/-- C7: when the read loop completes without a raised error and the
accumulated text strips to the empty string, `generate_text` reports
the empty-result diagnostic — a distinct condition from a crash and
from a transport error; in particular the full call on a stream
consisting solely of `{"done":true}` reports it. -/
theorem empty_generation_reported :
    (∀ (acc : StreamAcc) (d : Bool), pyStrip acc.text = "" →
      generate_text_result (.ok (acc, d)) = .emptyText acc.log) ∧
    generate_text_run "http://h" "m" "p"
        (.resp 200 [.event (.dict [("done", .bool true)])]) =
      (.emptyText [.dict [("done", .bool true)]],
       [generate_text_request "http://h" "m" "p"]) ∧
    (∀ (log : List PyVal) (e : PyError), GenResult.emptyText log ≠ .crash e) ∧
    (∀ (log : List PyVal) (msg : String),
      GenResult.emptyText log ≠ .transportError msg) := by
  refine ⟨?_, rfl, by simp, by simp⟩
  intro acc d h
  simp [generate_text_result, h]

/-- Witness for C7: the empty-result classification applied to the
state left by the `{"done":true}`-only stream. -/
theorem empty_generation_reported_witness :
    generate_text_result (.ok (⟨"", [PyVal.dict [("done", .bool true)]]⟩, true)) =
      .emptyText [.dict [("done", .bool true)]] :=
  empty_generation_reported.1 ⟨"", [.dict [("done", .bool true)]]⟩ true rfl

/-- C3: classification of `call_ollama_api` outcomes — a 204 response
returns `True` whatever its body holds; a 200 response returns the
parsed JSON body, or the raw body text when parsing fails; every other
status returns `None` with the status diagnostic, and a transport
failure returns `None` with the network diagnostic, the two diagnostics
being distinct for all arguments. The classifier is a total function,
so no input makes it raise. -/
theorem call_ollama_api_classification :
    (∀ r : HttpResponse, r.status = 204 →
      call_ollama_api_result (.response r) = (.bool true, [])) ∧
    (∀ (r : HttpResponse) (v : PyVal), r.status = 200 →
      r.bodyJson = Option.some v →
      call_ollama_api_result (.response r) = (v, [])) ∧
    (∀ r : HttpResponse, r.status = 200 → r.bodyJson = Option.none →
      call_ollama_api_result (.response r) = (.str r.bodyText, [])) ∧
    (∀ r : HttpResponse, r.status ≠ 200 → r.status ≠ 204 →
      call_ollama_api_result (.response r) = (.none, [.httpStatus r.status])) ∧
    (∀ msg : String,
      call_ollama_api_result (.transportError msg) = (.none, [.transport msg])) ∧
    (∀ (msg : String) (code : Nat), ApiErr.transport msg ≠ ApiErr.httpStatus code) := by
  refine ⟨?_, ?_, ?_, ?_, fun msg => rfl, by simp⟩
  · intro r h
    simp [call_ollama_api_result, h]
  · intro r v h hj
    simp [call_ollama_api_result, h, hj]
  · intro r h hj
    simp [call_ollama_api_result, h, hj]
  · intro r h h'
    simp [call_ollama_api_result, h, h']

/-- Witness for C3: the classification applied to a concrete 204
response, a 200 JSON response, a 200 non-JSON response, a 500 response
and a transport failure. -/
theorem call_ollama_api_classification_witness :
    call_ollama_api_result (.response ⟨204, "ignored", Option.none⟩) =
      (.bool true, []) ∧
    call_ollama_api_result
        (.response ⟨200, "true", Option.some (.bool true)⟩) = (.bool true, []) ∧
    call_ollama_api_result (.response ⟨200, "oops", Option.none⟩) =
      (.str "oops", []) ∧
    call_ollama_api_result (.response ⟨500, "", Option.none⟩) =
      (.none, [.httpStatus 500]) ∧
    ApiErr.transport "connection refused" ≠ ApiErr.httpStatus 500 :=
  ⟨call_ollama_api_classification.1 ⟨204, "ignored", Option.none⟩ rfl,
   call_ollama_api_classification.2.1 ⟨200, "true", Option.some (.bool true)⟩
     (.bool true) rfl rfl,
   call_ollama_api_classification.2.2.1 ⟨200, "oops", Option.none⟩ rfl rfl,
   call_ollama_api_classification.2.2.2.1 ⟨500, "", Option.none⟩
     (by decide) (by decide),
   call_ollama_api_classification.2.2.2.2.2 "connection refused" 500⟩

/-- C4 counterexample: on an HTTP 204 response — the `SuccessEmpty`
case, on which `call_ollama_api` returns `True` — `delete_model`
reports failure, because `True == ""` is false in Python; the claim
that a 204 is reported as a successful deletion is therefore false. -/
theorem delete_204_reported_failure :
    (call_ollama_api_result (.response ⟨204, "", Option.none⟩)).1 = .bool true ∧
    (delete_model_run "http://h" "m" true
        (.response ⟨204, "", Option.none⟩)).1 = .opFailure :=
  ⟨rfl, rfl⟩

/-- C4 amended: a confirmed `delete_model` with a non-empty stripped
name reports success iff the value returned by `call_ollama_api`
compares `== ""`, i.e. iff it is the empty-string payload
(`Success("")`); every other result — including the `True` returned on
a 204 — is reported as a deletion failure. -/
theorem delete_success_iff_empty_string (url name : String)
    (t : TransportOutcome) (h : pyStrip name ≠ "") :
    ((delete_model_run url name true t).1 = .opSuccess ↔
      (call_ollama_api_result t).1 = .str "") ∧
    ((delete_model_run url name true t).1 = .opSuccess ∨
      (delete_model_run url name true t).1 = .opFailure) := by
  have key : ∀ v : PyVal, pyEqStr v "" = true ↔ v = .str "" := by
    intro v
    cases v <;> simp [pyEqStr]
  constructor
  · simp only [delete_model_run, if_neg h]
    by_cases hv : pyEqStr (call_ollama_api_result t).1 "" = true
    · simp [hv, (key _).mp hv, pyEqStr]
    · have : (call_ollama_api_result t).1 ≠ .str "" := by
        intro he
        exact hv ((key _).mpr he)
      simp [hv, this]
  · simp only [delete_model_run, if_neg h]
    by_cases hv : pyEqStr (call_ollama_api_result t).1 "" = true <;> simp [hv]

/-- Witness for the amended C4: a 200 response with an empty body is
reported as a successful deletion. -/
theorem delete_success_iff_empty_string_witness :
    (delete_model_run "http://h" "m" true
        (.response ⟨200, "", Option.none⟩)).1 = .opSuccess :=
  (delete_success_iff_empty_string "http://h" "m"
      (.response ⟨200, "", Option.none⟩) (by decide)).1.mpr rfl

/-- C8: with a non-empty stripped model name, `pull_model` and
`push_model` report success iff the value returned by
`call_ollama_api` is exactly the boolean `True` (the `result is True`
check); the reported outcome does not depend on the `stream` flag; and
the outcome is always either the success or the failure report — a
`None` from a `Failure` or any non-boolean payload shape is reported
as failure, never silently dropped. -/
theorem pull_push_success_iff_bool_true (url name : String)
    (stream stream' : Bool) (t : TransportOutcome)
    (h : pyStrip name ≠ "") :
    ((pull_model_run url name stream t).1 = .opSuccess ↔
      (call_ollama_api_result t).1 = .bool true) ∧
    ((push_model_run url name stream t).1 = .opSuccess ↔
      (call_ollama_api_result t).1 = .bool true) ∧
    (pull_model_run url name stream t).1 = (pull_model_run url name stream' t).1 ∧
    (push_model_run url name stream t).1 = (push_model_run url name stream' t).1 ∧
    ((pull_model_run url name stream t).1 = .opSuccess ∨
      (pull_model_run url name stream t).1 = .opFailure) ∧
    ((push_model_run url name stream t).1 = .opSuccess ∨
      (push_model_run url name stream t).1 = .opFailure) := by
  have key : ∀ v : PyVal, pyIsTrue v = true ↔ v = .bool true := by
    intro v
    cases v with
    | bool b => cases b <;> simp [pyIsTrue]
    | _ => simp [pyIsTrue]
  have hiff : ∀ st : Bool, ((if pyIsTrue (call_ollama_api_result t).1 then
      OpResult.opSuccess else OpResult.opFailure) = .opSuccess ↔
      (call_ollama_api_result t).1 = .bool true) := by
    intro st
    by_cases hv : pyIsTrue (call_ollama_api_result t).1 = true
    · simp [hv, (key _).mp hv, pyIsTrue]
    · have : (call_ollama_api_result t).1 ≠ .bool true := by
        intro he
        exact hv ((key _).mpr he)
      simp [hv, this]
  refine ⟨?_, ?_, ?_, ?_, ?_, ?_⟩
  · simp only [pull_model_run, if_neg h]
    exact hiff stream
  · simp only [push_model_run, if_neg h]
    exact hiff stream
  · simp only [pull_model_run, if_neg h]
  · simp only [push_model_run, if_neg h]
  · simp only [pull_model_run, if_neg h]
    by_cases hv : pyIsTrue (call_ollama_api_result t).1 = true <;> simp [hv]
  · simp only [push_model_run, if_neg h]
    by_cases hv : pyIsTrue (call_ollama_api_result t).1 = true <;> simp [hv]

/-- Witness for C8: a 200 response whose body is the JSON literal
`true` is reported as a successful pull. -/
theorem pull_push_success_iff_bool_true_witness :
    (pull_model_run "http://h" "m" false
        (.response ⟨200, "true", Option.some (.bool true)⟩)).1 = .opSuccess :=
  (pull_push_success_iff_bool_true "http://h" "m" false true
      (.response ⟨200, "true", Option.some (.bool true)⟩) (by decide)).1.mpr rfl

/-- C6: `generate_text` with a model name or prompt that strips to the
empty string, and `pull_model` / `push_model` / `copy_model` with an
empty required field, report the validation error and issue zero
network requests. -/
theorem validation_fails_before_network (url model prompt name src tgt : String)
    (st : Bool) (t : TransportOutcome) (ts : StreamTransport) :
    (pyStrip model = "" ∨ pyStrip prompt = "" →
      generate_text_run url model prompt ts = (.validationError, [])) ∧
    (pyStrip name = "" → pull_model_run url name st t = (.validationError, [])) ∧
    (pyStrip name = "" → push_model_run url name st t = (.validationError, [])) ∧
    (pyStrip src = "" ∨ pyStrip tgt = "" →
      copy_model_run url src tgt t = (.validationError, [])) := by
  refine ⟨fun h => ?_, fun h => ?_, fun h => ?_, fun h => ?_⟩
  · simp [generate_text_run, h]
  · simp [pull_model_run, h]
  · simp [push_model_run, h]
  · simp [copy_model_run, h]

/-- Witness for C6: a whitespace-only model name for the streaming
generation and for a pull, and an empty target for a copy, each report
the validation error with no request issued. -/
theorem validation_fails_before_network_witness :
    generate_text_run "http://h" "  " "hello" (.err "unused") =
      (.validationError, []) ∧
    pull_model_run "http://h" "" false
        (.response ⟨200, "true", Option.some (.bool true)⟩) =
      (.validationError, []) ∧
    copy_model_run "http://h" "src" " "
        (.response ⟨200, "true", Option.some (.bool true)⟩) =
      (.validationError, []) :=
  ⟨(validation_fails_before_network "http://h" "  " "hello" "" "src" " "
      false (.response ⟨200, "true", Option.some (.bool true)⟩)
      (.err "unused")).1 (Or.inl rfl),
   (validation_fails_before_network "http://h" "  " "hello" "" "src" " "
      false (.response ⟨200, "true", Option.some (.bool true)⟩)
      (.err "unused")).2.1 rfl,
   (validation_fails_before_network "http://h" "  " "hello" "" "src" " "
      false (.response ⟨200, "true", Option.some (.bool true)⟩)
      (.err "unused")).2.2.2 (Or.inr rfl)⟩

/-- C10: every method string other than exactly `"POST"` or `"DELETE"`
falls through to `requests.get` in `call_ollama_api`: the issued
request is a `GET` on `{url}/api/{endpoint}` with `verify=False` whose
body is `None` — any supplied `json_data` is discarded. -/
theorem other_methods_issue_get (url endpoint method : String)
    (json_data : Option PyVal) (h : method ≠ "POST") (h' : method ≠ "DELETE") :
    call_ollama_api_request url endpoint method json_data =
      { method := "GET", url := url ++ "/api/" ++ endpoint,
        body := Option.none, verify := false, stream := false } := by
  simp [call_ollama_api_request, h, h']

/-- Witness for C10: a `"HEAD"` dispatch with a body supplied issues a
bodyless `GET`. -/
theorem other_methods_issue_get_witness :
    call_ollama_api_request "http://h" "tags" "HEAD"
        (Option.some (.str "ignored")) =
      { method := "GET", url := "http://h" ++ "/api/" ++ "tags",
        body := Option.none, verify := false, stream := false } :=
  other_methods_issue_get "http://h" "tags" "HEAD"
    (Option.some (.str "ignored")) (by decide) (by decide)

/-- C9 counterexample: the streaming generate `POST` of `generate_text`
passes no `verify` argument, so it runs with the `requests` default —
certificate verification enabled — and the claim that every request
is sent with verification disabled is false at this request. -/
theorem generate_stream_post_verifies :
    (generate_text_request "https://h" "m" "p").verify = true ∧
    requestsDefaultVerify = true :=
  ⟨rfl, rfl⟩

/-- C9 amended: every request constructed inside `call_ollama_api` and
the blob `HEAD` check are sent with TLS certificate verification
disabled (`verify=False`), while the streaming generate `POST` omits
the flag and therefore uses the `requests` default of verification
enabled. -/
theorem tls_verification_flags (url endpoint method digest model prompt : String)
    (json_data : Option PyVal) :
    (call_ollama_api_request url endpoint method json_data).verify = false ∧
    (check_blob_request url digest).verify = false ∧
    (generate_text_request url model prompt).verify = requestsDefaultVerify ∧
    requestsDefaultVerify = true := by
  refine ⟨?_, rfl, rfl, rfl⟩
  simp only [call_ollama_api_request]
  split
  · rfl
  · split <;> rfl
